import Mathlib

/-!
# Verification of `aiobookoo/decode.py`

Shallow embedding of the frame-classification and decode logic of the
`aiobookoo` package (file `src/aiobookoo/decode.py`) together with proofs
about it.

Embedding conventions:
* a Python `bytearray` is a `List Nat` (each element a byte value);
* Python float division (`x / 1000.0`, `x / 100.0`) is modelled as exact
  division in `ℚ`;
* Python slices `payload[a:b]` (which clamp and never raise) become
  `(payload.drop a).take (b - a)`;
* Python scalar indexing `payload[i]` inside `BookooMessage.__init__` is
  modelled with `List.getD i 0`: every call site guards the length to be
  exactly 20, so the default is never used on the executions the program
  performs;
* the scalar reads `payload[14]`, `payload[15]`, `payload[16]` inside the
  `try` block of `decode_ultra_message` are modelled with `List.get?`, and
  the Python `except` branch becomes the `none` branch of the match, so the
  soft-failure path of the source is represented faithfully;
* Python exceptions raised by `decode` become the `Except.error` side of an
  `Except` result.
-/

/-- Python `int.from_bytes(bs, byteorder="big")` (unsigned). -/
def intFromBytesBE (bs : List Nat) : Nat :=
  bs.foldl (fun acc b => acc * 256 + b) 0

/-- Python `int.from_bytes(bs, byteorder="big", signed=True)`: big-endian
two's-complement interpretation of the byte list. -/
def intFromBytesSignedBE (bs : List Nat) : Int :=
  let u := intFromBytesBE bs
  if 2 * u < 256 ^ bs.length then (u : Int) else (u : Int) - (256 ^ bs.length : Nat)

/-- The XOR fold `checksum = 0; for byte in l: checksum ^= byte` from
`BookooMessage.__init__`. -/
def xorFold (l : List Nat) : Nat :=
  l.foldl (fun acc b => acc ^^^ b) 0

/-- Modelled from the spec: the exception classes of `aiobookoo/exceptions.py`
are not under `src/`; the spec says the three failure kinds are frame too
short, frame too long and checksum mismatch, each carrying the offending
buffer (`BookooMessageError` in the source additionally carries a message
string). -/
inductive BookooException where
  | bookooMessageTooShort (frame : List Nat)
  | bookooMessageTooLong (frame : List Nat)
  | bookooMessageError (frame : List Nat) (msg : String)
  deriving DecidableEq, Repr

/-- The decoded measurement record built by `BookooMessage.__init__` (Mini)
and, field by field via `__new__`, by `decode_ultra_message` (Ultra).
Fields that one of the two constructions leaves absent (`None`, or a never
assigned attribute such as `weight_symbol` on the Ultra path) are `Option`s. -/
structure BookooMessage where
  timer : Option ℚ
  unit : Nat
  weight_symbol : Option Int
  weight : Option ℚ
  flow_symbol : Option Int
  flow_rate : Option ℚ
  battery : Nat
  standby_time : Nat
  buzzer_gear : Nat
  flow_rate_smoothing : Option Nat
  deriving DecidableEq, Repr

/-- `BookooMessage.__init__` (the Mini decoder): extracts the fields and then
raises `BookooMessageError(payload, "Checksum mismatch")` when the XOR fold
of all bytes but the last differs from the last byte. -/
def BookooMessage.init (payload : List Nat) : Except BookooException BookooMessage :=
  let timer : ℚ := (intFromBytesBE ((payload.drop 3).take 2) : ℚ) / 1000
  let unit : Nat := payload.getD 5 0
  let weight_symbol : Int := if payload.getD 6 0 = 45 then -1 else 1
  let weight : ℚ :=
    (intFromBytesBE ((payload.drop 8).take 2) : ℚ) / 100 * (weight_symbol : ℚ)
  let flow_symbol : Int := if payload.getD 10 0 = 45 then -1 else 1
  let flow_rate : ℚ :=
    (intFromBytesBE ((payload.drop 12).take 1) : ℚ) / 100 * (flow_symbol : ℚ)
  let checksum : Nat := xorFold payload.dropLast
  if checksum ≠ payload.getLastD 0 then
    .error (.bookooMessageError payload "Checksum mismatch")
  else
    .ok { timer := some timer
          unit := unit
          weight_symbol := some weight_symbol
          weight := some weight
          flow_symbol := some flow_symbol
          flow_rate := some flow_rate
          battery := payload.getD 13 0
          standby_time := payload.getD 14 0
          buzzer_gear := payload.getD 16 0
          flow_rate_smoothing := some (payload.getD 17 0) }

/-- `is_ultra_message`: 20 bytes long and starting with `0x55 0xAA`.
(The Python `and` short-circuits, so `payload[0]` is only read once the
length is known to be 20; `getD` agrees with that read there.) -/
def is_ultra_message (payload : List Nat) : Bool :=
  payload.length = 20 && payload.getD 0 0 = 0x55 && payload.getD 1 0 = 0xAA

/-- `decode_ultra_message`: weight from the signed big-endian 32-bit value at
`payload[6:10]`, settings from `payload[14]`, `payload[15]`, `payload[16]`;
any exception inside the `try` block (only the three scalar reads can raise)
is caught and turned into the soft result `(None, payload)`. -/
def decode_ultra_message (payload : List Nat) :
    Option BookooMessage × List Nat :=
  let raw_weight : Int := intFromBytesSignedBE ((payload.drop 6).take 4)
  let weight : ℚ := (raw_weight : ℚ) / 100
  match payload.get? 14, payload.get? 15, payload.get? 16 with
  | some b14, some b15, some b16 =>
      (some { timer := none
              unit := 0
              weight_symbol := none
              weight := some weight
              flow_symbol := none
              flow_rate := none
              battery := b14
              standby_time := b16
              buzzer_gear := b15
              flow_rate_smoothing := none }, [])
  | _, _, _ => (none, payload)

/-- Modelled from the spec: `WEIGHT_BYTE1` of `aiobookoo/const.py`, which is
not under `src/`. The spec fixes only that the two Mini marker constants
differ from the Ultra markers `0x55 0xAA`; theorems therefore quantify over
the marker pair, and this concrete value is used for witnesses. -/
def WEIGHT_BYTE1 : Nat := 0x03

/-- Modelled from the spec: `WEIGHT_BYTE2` of `aiobookoo/const.py`, the
second Mini marker constant (see `WEIGHT_BYTE1`). -/
def WEIGHT_BYTE2 : Nat := 0x0B

/-- The entry point `decode`, parametrised by the two Mini marker constants
`WEIGHT_BYTE1`/`WEIGHT_BYTE2` imported from `const.py` (see above): length
check, Ultra first, then Mini, else the pass-through result. -/
def decode (w1 w2 : Nat) (byte_msg : List Nat) :
    Except BookooException (Option BookooMessage × List Nat) :=
  if byte_msg.length < 20 then
    .error (.bookooMessageTooShort byte_msg)
  else if byte_msg.length > 20 then
    .error (.bookooMessageTooLong byte_msg)
  else if is_ultra_message byte_msg then
    .ok (decode_ultra_message byte_msg)
  else if byte_msg.getD 0 0 = w1 ∧ byte_msg.getD 1 0 = w2 then
    match BookooMessage.init byte_msg with
    | .ok m => .ok (some m, [])
    | .error e => .error e
  else
    .ok (none, byte_msg)

instance {ε α : Type} [DecidableEq ε] [DecidableEq α] : DecidableEq (Except ε α) := fun
  | .ok a, .ok b =>
      if h : a = b then .isTrue (by rw [h]) else .isFalse (by simp [h])
  | .ok _, .error _ => .isFalse (by simp)
  | .error _, .ok _ => .isFalse (by simp)
  | .error e, .error f =>
      if h : e = f then .isTrue (by rw [h]) else .isFalse (by simp [h])

/-- The weight carried by a decode result, when one is. -/
def decodedWeight (r : Except BookooException (Option BookooMessage × List Nat)) :
    Option ℚ :=
  match r with
  | .ok (some m, _) => m.weight
  | _ => none

/-! ## Helper lemmas about the XOR fold -/

theorem foldl_xor_eq (l : List Nat) (a : Nat) :
    l.foldl (fun acc b => acc ^^^ b) a = a ^^^ xorFold l := by
  induction l generalizing a with
  | nil => simp [xorFold]
  | cons b t ih =>
    simp only [xorFold, List.foldl_cons]
    rw [ih (a ^^^ b), ih (0 ^^^ b), Nat.zero_xor, Nat.xor_assoc]

theorem xorFold_cons (b : Nat) (t : List Nat) :
    xorFold (b :: t) = b ^^^ xorFold t := by
  simp only [xorFold, List.foldl_cons, Nat.zero_xor]
  exact foldl_xor_eq t b

theorem xorFold_set (l : List Nat) (i m : Nat) (h : i < l.length) :
    xorFold (l.set i (l.getD i 0 ^^^ m)) = xorFold l ^^^ m := by
  induction l generalizing i with
  | nil => simp at h
  | cons b t ih =>
    cases i with
    | zero =>
      simp only [List.set, List.getD_cons_zero, xorFold_cons]
      rw [Nat.xor_assoc, Nat.xor_comm m (xorFold t), ← Nat.xor_assoc]
    | succ j =>
      simp only [List.set, List.getD_cons_succ, xorFold_cons]
      rw [ih j (by simpa using h), ← Nat.xor_assoc]

theorem xor_pow_ne (a k : Nat) : a ^^^ 2 ^ k ≠ a := by
  intro h
  have h0 : a ^^^ 2 ^ k = a ^^^ 0 := by rw [Nat.xor_zero]; exact h
  have h2 : (2 : Nat) ^ k = 0 := Nat.xor_right_injective h0
  have h3 : 0 < (2 : Nat) ^ k := pow_pos (by norm_num) k
  omega

/-! ## Claims -/

/-- C3: a buffer whose length is not 20 always fails, with
`BookooMessageTooShort` below 20 and `BookooMessageTooLong` above 20, the
error carrying the offending buffer; no classification is attempted. -/
theorem decode_length_gate (w1 w2 : Nat) (p : List Nat) (h : p.length ≠ 20) :
    decode w1 w2 p =
      .error (if p.length < 20 then .bookooMessageTooShort p
              else .bookooMessageTooLong p) := by
  by_cases hlt : p.length < 20
  · simp [decode, hlt]
  · have hgt : 20 < p.length := lt_of_le_of_ne (not_lt.mp hlt) (Ne.symm h)
    simp [decode, hlt, hgt]

theorem decode_length_gate_witness :
    decode WEIGHT_BYTE1 WEIGHT_BYTE2 [1, 2, 3] =
      .error (.bookooMessageTooShort [1, 2, 3]) ∧
    decode WEIGHT_BYTE1 WEIGHT_BYTE2 (List.replicate 21 0) =
      .error (.bookooMessageTooLong (List.replicate 21 0)) := by
  constructor
  · have h := decode_length_gate WEIGHT_BYTE1 WEIGHT_BYTE2 [1, 2, 3] (by decide)
    simpa using h
  · have h := decode_length_gate WEIGHT_BYTE1 WEIGHT_BYTE2
      (List.replicate 21 0) (by decide)
    simpa using h

/-- C5: a 20-byte buffer starting `0x55 0xAA` is always dispatched to the
Ultra decoder, whatever the Mini marker constants are — in particular even
when the buffer also satisfies the Mini marker predicate. -/
theorem ultra_priority (w1 w2 : Nat) (p : List Nat) (hlen : p.length = 20)
    (h0 : p.getD 0 0 = 0x55) (h1 : p.getD 1 0 = 0xAA) :
    decode w1 w2 p = .ok (decode_ultra_message p) := by
  simp [hlen] at h0 h1
  simp [decode, is_ultra_message, hlen, h0, h1]

theorem ultra_priority_witness :
    decode 0x55 0xAA [0x55, 0xAA, 0, 0, 0, 0, 0, 0, 0, 0, 0, 0, 0, 0, 0, 0, 0, 0, 0, 0] =
      .ok (decode_ultra_message
        [0x55, 0xAA, 0, 0, 0, 0, 0, 0, 0, 0, 0, 0, 0, 0, 0, 0, 0, 0, 0, 0]) :=
  ultra_priority 0x55 0xAA
    [0x55, 0xAA, 0, 0, 0, 0, 0, 0, 0, 0, 0, 0, 0, 0, 0, 0, 0, 0, 0, 0]
    (by decide) (by decide) (by decide)

/-- C7: a 20-byte buffer matching neither the Ultra marker nor the Mini
marker decodes to the pass-through result `(none, original frame)`, which is
not an error. -/
theorem decode_unrecognized_passthrough (w1 w2 : Nat) (p : List Nat)
    (hlen : p.length = 20)
    (hu : ¬(p.getD 0 0 = 0x55 ∧ p.getD 1 0 = 0xAA))
    (hm : ¬(p.getD 0 0 = w1 ∧ p.getD 1 0 = w2)) :
    decode w1 w2 p = .ok (none, p) := by
  simp [hlen] at hu hm
  have hu' : is_ultra_message p = false := by
    simp [is_ultra_message, hlen]
    tauto
  simp [decode, hlen, hu', hm]
  intro ha hb
  exact absurd hb (hm ha)

theorem decode_unrecognized_passthrough_witness :
    decode WEIGHT_BYTE1 WEIGHT_BYTE2 (List.replicate 20 7) =
      .ok (none, List.replicate 20 7) :=
  decode_unrecognized_passthrough WEIGHT_BYTE1 WEIGHT_BYTE2
    (List.replicate 20 7) (by decide) (by decide) (by decide)

/-- C8: the Ultra decoder never lets an error escape: on any input it either
returns a decoded record with empty leftover or the soft result
`(none, original frame)`; by contrast the Mini decoder raises
`BookooMessageError` on a checksum failure (shown on a concrete frame). -/
theorem ultra_soft_failure_policy :
    (∀ p : List Nat,
      (∃ m, decode_ultra_message p = (some m, [])) ∨
        decode_ultra_message p = (none, p)) ∧
    BookooMessage.init [3, 11, 0, 0, 0, 0, 0, 0, 0, 0, 0, 0, 0, 0, 0, 0, 0, 0, 0, 0] =
      .error (.bookooMessageError
        [3, 11, 0, 0, 0, 0, 0, 0, 0, 0, 0, 0, 0, 0, 0, 0, 0, 0, 0, 0]
        "Checksum mismatch") := by
  constructor
  · intro p
    cases h14 : p[14]? with
    | none => exact Or.inr (by simp [decode_ultra_message, h14])
    | some b14 =>
      cases h15 : p[15]? with
      | none => exact Or.inr (by simp [decode_ultra_message, h14, h15])
      | some b15 =>
        cases h16 : p[16]? with
        | none => exact Or.inr (by simp [decode_ultra_message, h14, h15, h16])
        | some b16 =>
          exact Or.inl ⟨BookooMessage.mk none 0 none
            (some ((intFromBytesSignedBE ((p.drop 6).take 4) : ℚ) / 100))
            none none b14 b16 b15 none,
            by simp [decode_ultra_message, h14, h15, h16]⟩
  · simp [BookooMessage.init, xorFold]

/-- C1: decoding a 20-byte Mini frame with a valid checksum yields the record
with `timer` the big-endian 16-bit value at `[3:5]` over 1000, `unit` byte 5,
`weight` the big-endian 16-bit value at `[8:10]` over 100 negated exactly when
byte 6 is `0x2D`, `flow_rate` byte 12 over 100 negated exactly when byte 10 is
`0x2D`, `battery` byte 13, `standby_time` byte 14, `buzzer_gear` byte 16 and
`flow_rate_smoothing` byte 17. -/
theorem mini_decode_fields
    (w1 w2 b0 b1 b2 b3 b4 b5 b6 b7 b8 b9 b10 b11 b12 b13 b14 b15 b16 b17 b18 b19 : Nat)
    (hne : ¬(w1 = 0x55 ∧ w2 = 0xAA)) (h0 : b0 = w1) (h1 : b1 = w2)
    (hchk : xorFold [b0, b1, b2, b3, b4, b5, b6, b7, b8, b9, b10, b11, b12,
      b13, b14, b15, b16, b17, b18] = b19) :
    decode w1 w2 [b0, b1, b2, b3, b4, b5, b6, b7, b8, b9, b10, b11, b12, b13,
      b14, b15, b16, b17, b18, b19] =
      .ok (some (BookooMessage.mk
        (some ((b3 * 256 + b4 : ℚ) / 1000))
        b5
        (some (if b6 = 45 then -1 else 1))
        (some (if b6 = 45 then -((b8 * 256 + b9 : ℚ) / 100)
               else (b8 * 256 + b9 : ℚ) / 100))
        (some (if b10 = 45 then -1 else 1))
        (some (if b10 = 45 then -((b12 : ℚ) / 100) else (b12 : ℚ) / 100))
        b13 b14 b16 (some b17)), []) := by
  subst h0 h1
  by_cases h6 : b6 = 45 <;> by_cases h10 : b10 = 45 <;>
    simp_all [decode, is_ultra_message, BookooMessage.init, List.dropLast,
      intFromBytesBE]

theorem mini_decode_fields_witness :
    decodedWeight (decode WEIGHT_BYTE1 WEIGHT_BYTE2
      [3, 11, 0, 0, 0, 0, 0, 0, 48, 57, 0, 0, 0, 0, 0, 0, 0, 0, 0, 1]) =
      some (123.45 : ℚ) ∧
    decodedWeight (decode WEIGHT_BYTE1 WEIGHT_BYTE2
      [3, 11, 0, 0, 0, 0, 45, 0, 48, 57, 0, 0, 0, 0, 0, 0, 0, 0, 0, 44]) =
      some (-123.45 : ℚ) := by
  have hA := mini_decode_fields WEIGHT_BYTE1 WEIGHT_BYTE2
    3 11 0 0 0 0 0 0 48 57 0 0 0 0 0 0 0 0 0 1
    (by decide) rfl rfl (by decide)
  have hB := mini_decode_fields WEIGHT_BYTE1 WEIGHT_BYTE2
    3 11 0 0 0 0 45 0 48 57 0 0 0 0 0 0 0 0 0 44
    (by decide) rfl rfl (by decide)
  constructor
  · rw [hA]
    simp [decodedWeight]
    norm_num
  · rw [hB]
    simp [decodedWeight]
    norm_num

/-- C2: decoding a 20-byte Ultra frame yields the record with `weight` the
big-endian 32-bit two's-complement value at `[6:10]` over 100, `battery`
byte 14, `buzzer_gear` byte 15, `standby_time` byte 16, `unit` the sentinel 0,
and `timer`, `flow_rate`, `flow_rate_smoothing` absent, with empty leftover. -/
theorem ultra_decode_fields
    (w1 w2 b0 b1 b2 b3 b4 b5 b6 b7 b8 b9 b10 b11 b12 b13 b14 b15 b16 b17 b18 b19 : Nat)
    (h0 : b0 = 0x55) (h1 : b1 = 0xAA) :
    decode w1 w2 [b0, b1, b2, b3, b4, b5, b6, b7, b8, b9, b10, b11, b12, b13,
      b14, b15, b16, b17, b18, b19] =
      .ok (some (BookooMessage.mk none 0 none
        (some ((intFromBytesSignedBE [b6, b7, b8, b9] : ℚ) / 100))
        none none b14 b16 b15 none), []) := by
  subst h0 h1
  simp [decode, is_ultra_message, decode_ultra_message]

theorem ultra_decode_fields_witness :
    decode WEIGHT_BYTE1 WEIGHT_BYTE2
      [0x55, 0xAA, 0, 0, 0, 0, 0, 0, 48, 57, 0, 0, 0, 0, 7, 8, 9, 0, 0, 0] =
      .ok (some (BookooMessage.mk none 0 none
        (some ((intFromBytesSignedBE [0, 0, 48, 57] : ℚ) / 100))
        none none 7 9 8 none), []) :=
  ultra_decode_fields WEIGHT_BYTE1 WEIGHT_BYTE2
    0x55 0xAA 0 0 0 0 0 0 48 57 0 0 0 0 7 8 9 0 0 0 rfl rfl

/-- C4: a 20-byte frame with the Mini marker decodes successfully exactly
when the XOR fold of all bytes but the last equals the last byte; on a
mismatch `decode` fails with the checksum error carrying the frame. -/
theorem mini_checksum_gates
    (w1 w2 b0 b1 b2 b3 b4 b5 b6 b7 b8 b9 b10 b11 b12 b13 b14 b15 b16 b17 b18 b19 : Nat)
    (hne : ¬(w1 = 0x55 ∧ w2 = 0xAA)) (h0 : b0 = w1) (h1 : b1 = w2) :
    ((∃ m, decode w1 w2 [b0, b1, b2, b3, b4, b5, b6, b7, b8, b9, b10, b11,
        b12, b13, b14, b15, b16, b17, b18, b19] = .ok (some m, [])) ↔
      xorFold [b0, b1, b2, b3, b4, b5, b6, b7, b8, b9, b10, b11, b12, b13,
        b14, b15, b16, b17, b18] = b19) ∧
    (xorFold [b0, b1, b2, b3, b4, b5, b6, b7, b8, b9, b10, b11, b12, b13,
        b14, b15, b16, b17, b18] ≠ b19 →
      decode w1 w2 [b0, b1, b2, b3, b4, b5, b6, b7, b8, b9, b10, b11, b12,
        b13, b14, b15, b16, b17, b18, b19] =
        .error (.bookooMessageError [b0, b1, b2, b3, b4, b5, b6, b7, b8, b9,
          b10, b11, b12, b13, b14, b15, b16, b17, b18, b19]
          "Checksum mismatch")) := by
  subst h0 h1
  by_cases hc : xorFold [b0, b1, b2, b3, b4, b5, b6, b7, b8, b9, b10, b11,
      b12, b13, b14, b15, b16, b17, b18] = b19
  · cases hinit : BookooMessage.init [b0, b1, b2, b3, b4, b5, b6, b7, b8, b9,
        b10, b11, b12, b13, b14, b15, b16, b17, b18, b19] with
    | error e =>
      exfalso
      simp [BookooMessage.init, List.dropLast, hc] at hinit
    | ok m =>
      have hok : decode b0 b1 [b0, b1, b2, b3, b4, b5, b6, b7, b8, b9, b10,
          b11, b12, b13, b14, b15, b16, b17, b18, b19] = .ok (some m, []) := by
        simp [decode, is_ultra_message, hne, hinit]
      exact ⟨⟨fun _ => hc, fun _ => ⟨m, hok⟩⟩, fun hbad => absurd hc hbad⟩
  · have herr : decode b0 b1 [b0, b1, b2, b3, b4, b5, b6, b7, b8, b9, b10,
        b11, b12, b13, b14, b15, b16, b17, b18, b19] =
        .error (.bookooMessageError [b0, b1, b2, b3, b4, b5, b6, b7, b8, b9,
          b10, b11, b12, b13, b14, b15, b16, b17, b18, b19]
          "Checksum mismatch") := by
      simp [decode, is_ultra_message, hne, BookooMessage.init, List.dropLast, hc]
    refine ⟨⟨?_, fun h => absurd h hc⟩, fun _ => herr⟩
    rintro ⟨m, hm⟩
    rw [herr] at hm
    exact absurd hm (by simp)

theorem mini_checksum_gates_witness :
    ((∃ m, decode WEIGHT_BYTE1 WEIGHT_BYTE2
        [3, 11, 0, 0, 0, 0, 0, 0, 0, 0, 0, 0, 0, 0, 0, 0, 0, 0, 0, 8] =
        .ok (some m, [])) ↔
      xorFold [3, 11, 0, 0, 0, 0, 0, 0, 0, 0, 0, 0, 0, 0, 0, 0, 0, 0, 0] = 8) ∧
    (xorFold [3, 11, 0, 0, 0, 0, 0, 0, 0, 0, 0, 0, 0, 0, 0, 0, 0, 0, 0] ≠ 8 →
      decode WEIGHT_BYTE1 WEIGHT_BYTE2
        [3, 11, 0, 0, 0, 0, 0, 0, 0, 0, 0, 0, 0, 0, 0, 0, 0, 0, 0, 8] =
        .error (.bookooMessageError
          [3, 11, 0, 0, 0, 0, 0, 0, 0, 0, 0, 0, 0, 0, 0, 0, 0, 0, 0, 8]
          "Checksum mismatch")) :=
  mini_checksum_gates WEIGHT_BYTE1 WEIGHT_BYTE2
    3 11 0 0 0 0 0 0 0 0 0 0 0 0 0 0 0 0 0 8 (by decide) rfl rfl

/-- Helper: a 20-byte Mini-marked frame with a failing checksum makes
`decode` raise the checksum error. -/
theorem decode_mini_error (w1 w2 : Nat) (p : List Nat)
    (hne : ¬(w1 = 0x55 ∧ w2 = 0xAA)) (hlen : p.length = 20)
    (h0 : p.getD 0 0 = w1) (h1 : p.getD 1 0 = w2)
    (hbad : xorFold p.dropLast ≠ p.getLastD 0) :
    decode w1 w2 p = .error (.bookooMessageError p "Checksum mismatch") := by
  simp [hlen] at h0 h1
  have hu : is_ultra_message p = false := by
    simp [is_ultra_message, hlen, h0, h1]
    tauto
  have hinit : BookooMessage.init p =
      .error (.bookooMessageError p "Checksum mismatch") := by
    simp only [BookooMessage.init]
    rw [if_pos hbad]
  simp [decode, hlen, hu, h0, h1, hinit]

/-- C9 (amended): flipping any single bit of any byte at offsets 2 through 18
of a valid Mini frame, while leaving the checksum byte unchanged, makes
`decode` fail with the checksum-mismatch error. (Bytes 0 and 1 are excluded:
they are the marker, and corrupting them changes classification, as the
counterexample shows on one frame.) -/
theorem mini_bitflip_checksum (w1 w2 : Nat) (p : List Nat) (i k : Nat)
    (hne : ¬(w1 = 0x55 ∧ w2 = 0xAA)) (hlen : p.length = 20)
    (h0 : p.getD 0 0 = w1) (h1 : p.getD 1 0 = w2)
    (hchk : xorFold p.dropLast = p.getLastD 0)
    (hi2 : 2 ≤ i) (hi18 : i ≤ 18) (hk : k < 8) :
    decode w1 w2 (p.set i (p.getD i 0 ^^^ 2 ^ k)) =
      .error (.bookooMessageError (p.set i (p.getD i 0 ^^^ 2 ^ k))
        "Checksum mismatch") := by
  apply decode_mini_error
  · exact hne
  · simp [hlen]
  · rw [List.getD_eq_getElem?_getD, List.getElem?_set_ne (by omega : i ≠ 0),
      ← List.getD_eq_getElem?_getD]
    exact h0
  · rw [List.getD_eq_getElem?_getD, List.getElem?_set_ne (by omega : i ≠ 1),
      ← List.getD_eq_getElem?_getD]
    exact h1
  · have hlt : i < p.dropLast.length := by
      simp [List.length_dropLast, hlen]
      omega
    have hgd : p.dropLast.getD i 0 = p.getD i 0 := by
      rw [List.getD_eq_getElem?_getD, List.getD_eq_getElem?_getD,
        List.getElem?_dropLast, if_pos (by omega : i < p.length - 1)]
    have hqdl : (p.set i (p.getD i 0 ^^^ 2 ^ k)).dropLast =
        p.dropLast.set i (p.getD i 0 ^^^ 2 ^ k) := by
      rw [List.dropLast_eq_take, List.dropLast_eq_take, List.length_set,
        List.set_take]
    have hxor : xorFold ((p.set i (p.getD i 0 ^^^ 2 ^ k)).dropLast) =
        xorFold p.dropLast ^^^ 2 ^ k := by
      rw [hqdl, ← hgd, xorFold_set _ _ _ hlt]
    have hlast : (p.set i (p.getD i 0 ^^^ 2 ^ k)).getLastD 0 = p.getLastD 0 := by
      rw [List.getLastD_eq_getLast?, List.getLastD_eq_getLast?,
        List.getLast?_eq_getElem?, List.getLast?_eq_getElem?, List.length_set,
        List.getElem?_set_ne (by omega : i ≠ p.length - 1)]
    rw [hxor, hlast, hchk]
    exact xor_pow_ne _ k

theorem mini_bitflip_checksum_witness :
    decode WEIGHT_BYTE1 WEIGHT_BYTE2
      (List.set [3, 11, 0, 0, 0, 0, 0, 0, 0, 0, 0, 0, 0, 0, 0, 0, 0, 0, 0, 8] 2
        (List.getD [3, 11, 0, 0, 0, 0, 0, 0, 0, 0, 0, 0, 0, 0, 0, 0, 0, 0, 0, 8] 2 0 ^^^ 2 ^ 0)) =
      .error (.bookooMessageError
        (List.set [3, 11, 0, 0, 0, 0, 0, 0, 0, 0, 0, 0, 0, 0, 0, 0, 0, 0, 0, 8] 2
          (List.getD [3, 11, 0, 0, 0, 0, 0, 0, 0, 0, 0, 0, 0, 0, 0, 0, 0, 0, 0, 8] 2 0 ^^^ 2 ^ 0))
        "Checksum mismatch") :=
  mini_bitflip_checksum WEIGHT_BYTE1 WEIGHT_BYTE2
    [3, 11, 0, 0, 0, 0, 0, 0, 0, 0, 0, 0, 0, 0, 0, 0, 0, 0, 0, 8] 2 0
    (by decide) (by decide) rfl rfl (by decide) (by decide) (by decide) (by decide)

/-- C9 counterexample: on this valid Mini frame, flipping a bit of byte 0 (a
marker byte) while keeping the checksum byte does not produce the
checksum-mismatch error the claim demands: this frame is no longer
recognized and `decode` returns the pass-through result. -/
theorem mini_bitflip_counterexample :
    xorFold (List.dropLast [3, 11, 0, 0, 0, 0, 0, 0, 0, 0, 0, 0, 0, 0, 0, 0, 0, 0, 0, 8]) =
      List.getLastD [3, 11, 0, 0, 0, 0, 0, 0, 0, 0, 0, 0, 0, 0, 0, 0, 0, 0, 0, 8] 0 ∧
    decode WEIGHT_BYTE1 WEIGHT_BYTE2
      (List.set [3, 11, 0, 0, 0, 0, 0, 0, 0, 0, 0, 0, 0, 0, 0, 0, 0, 0, 0, 8] 0
        (List.getD [3, 11, 0, 0, 0, 0, 0, 0, 0, 0, 0, 0, 0, 0, 0, 0, 0, 0, 0, 8] 0 0 ^^^ 2 ^ 0)) =
      .ok (none, [2, 11, 0, 0, 0, 0, 0, 0, 0, 0, 0, 0, 0, 0, 0, 0, 0, 0, 0, 8]) := by
  decide

/-- C6 (amended): a 20-byte Ultra frame carrying the big-endian
two's-complement bytes `0xFF 0xFF 0xD8 0xF1` (the value −9999) at offsets
`[6:10]` decodes to `weight == -99.99`. -/
theorem ultra_weight_neg9999
    (w1 w2 b0 b1 b2 b3 b4 b5 b6 b7 b8 b9 b10 b11 b12 b13 b14 b15 b16 b17 b18 b19 : Nat)
    (h0 : b0 = 0x55) (h1 : b1 = 0xAA) (h6 : b6 = 0xFF) (h7 : b7 = 0xFF)
    (h8 : b8 = 0xD8) (h9 : b9 = 0xF1) :
    decodedWeight (decode w1 w2 [b0, b1, b2, b3, b4, b5, b6, b7, b8, b9, b10,
      b11, b12, b13, b14, b15, b16, b17, b18, b19]) =
      some (-(9999 : ℚ) / 100) := by
  subst h0 h1 h6 h7 h8 h9
  have hval : intFromBytesSignedBE [255, 255, 216, 241] = -9999 := by
    simp [intFromBytesSignedBE, intFromBytesBE]
  simp [decode, is_ultra_message, decode_ultra_message, decodedWeight, hval]

/-- C6 counterexample: the Ultra frame whose bytes `[6:10]` are
`0xFF 0xFF 0xD8 0xF1` decodes to weight −99.99, not −100.00 as the claim
states (that bit pattern is −9999, not −10000). -/
theorem ultra_weight_sign_counterexample :
    decodedWeight (decode WEIGHT_BYTE1 WEIGHT_BYTE2
      [0x55, 0xAA, 0, 0, 0, 0, 0xFF, 0xFF, 0xD8, 0xF1, 0, 0, 0, 0, 0, 0, 0, 0, 0, 0]) ≠
      some (-(100 : ℚ)) ∧
    decodedWeight (decode WEIGHT_BYTE1 WEIGHT_BYTE2
      [0x55, 0xAA, 0, 0, 0, 0, 0xFF, 0xFF, 0xD8, 0xF1, 0, 0, 0, 0, 0, 0, 0, 0, 0, 0]) =
      some (-(9999 : ℚ) / 100) := by
  have hval : intFromBytesSignedBE [255, 255, 216, 241] = -9999 := by
    simp [intFromBytesSignedBE, intFromBytesBE]
  constructor <;>
    simp [decode, is_ultra_message, decode_ultra_message, decodedWeight,
      WEIGHT_BYTE1, WEIGHT_BYTE2, hval] <;>
    norm_num

theorem ultra_weight_neg9999_witness :
    decodedWeight (decode WEIGHT_BYTE1 WEIGHT_BYTE2
      [85, 170, 1, 0, 0, 0, 255, 255, 216, 241, 0, 0, 0, 0, 5, 0, 0, 0, 0, 0]) =
      some (-(9999 : ℚ) / 100) :=
  ultra_weight_neg9999 WEIGHT_BYTE1 WEIGHT_BYTE2
    85 170 1 0 0 0 255 255 216 241 0 0 0 0 5 0 0 0 0 0
    rfl rfl rfl rfl rfl rfl

/-- C10: on any 20-byte buffer with the Ultra marker, every read the Ultra
decoder performs is in bounds, so its exception branch is unreachable and
`decode` returns a populated record with empty leftover, never the soft
failure. -/
theorem ultra_inbounds_total (w1 w2 : Nat) (p : List Nat) (hlen : p.length = 20)
    (h0 : p.getD 0 0 = 0x55) (h1 : p.getD 1 0 = 0xAA) :
    ∃ m, decode w1 w2 p = .ok (some m, []) := by
  simp [hlen] at h0 h1
  have h14 : p[14]? = some (p.get ⟨14, by omega⟩) := List.getElem?_eq_getElem (by omega)
  have h15 : p[15]? = some (p.get ⟨15, by omega⟩) := List.getElem?_eq_getElem (by omega)
  have h16 : p[16]? = some (p.get ⟨16, by omega⟩) := List.getElem?_eq_getElem (by omega)
  refine ⟨BookooMessage.mk none 0 none
    (some ((intFromBytesSignedBE ((p.drop 6).take 4) : ℚ) / 100))
    none none (p.get ⟨14, by omega⟩) (p.get ⟨16, by omega⟩)
    (p.get ⟨15, by omega⟩) none, ?_⟩
  simp [decode, is_ultra_message, hlen, h0, h1,
    decode_ultra_message, h14, h15, h16]

theorem ultra_inbounds_total_witness :
    ∃ m, decode WEIGHT_BYTE1 WEIGHT_BYTE2
      [0x55, 0xAA, 0, 0, 0, 0, 0, 0, 0, 0, 0, 0, 0, 0, 1, 2, 3, 0, 0, 0] =
      .ok (some m, []) :=
  ultra_inbounds_total WEIGHT_BYTE1 WEIGHT_BYTE2
    [0x55, 0xAA, 0, 0, 0, 0, 0, 0, 0, 0, 0, 0, 0, 0, 1, 2, 3, 0, 0, 0]
    (by decide) (by decide) (by decide)
